import Mathlib

/-!
Shallow embedding of the calibre-extract-isbn plugin (src/config.py and
src/pdf.py), together with a model of the identifier scanner.

The repository imports `calibre_plugins.extract_isbn.scan.BookScanner`,
but no `scan.py` is present among the source files; the scanner component
is therefore modelled from the specification (its definitions carry a
`Modelled from the spec:` doc comment).  Everything else is translated
directly from the Python source.
-/

set_option autoImplicit false

namespace ExtractIsbn

/-- Python exception outcomes that the embedded code can produce.
`conversionError` and `drmError` are calibre's `ConversionError`/`DRMError`;
`osError e` is an `OSError` with errno `e` re-raised as-is;
`valueError` is raised by Python `int()` on a non-numeric string;
`unboundLocalError` is raised when a local variable is referenced
before assignment. -/
inductive PyError where
  | conversionError
  | drmError
  | osError (errno : Nat)
  | valueError
  | unboundLocalError
  deriving DecidableEq, Repr

/-! ## config.py -/

/-- From config.py: the `validISBN13Prefix` entry of `DEFAULT_STORE_VALUES`,
the default list of valid ISBN-13 prefixes. -/
def DEFAULT_ISBN13_PREFIXES : List String := ["977", "978", "979"]

/-! ## Identifier scanner

Modelled from the spec: `scan.py` (class `BookScanner`) is not among the
source files, so the scanner is built from the specification text
(sections 3, 4.1, 6 and 7). -/

/-- The kind of a validated identifier. -/
inductive ISBNKind where
  | isbn10
  | isbn13
  deriving DecidableEq, Repr

/-- Modelled from the spec: a validated ISBN with its kind and its
normalized (separator-free) digit string. -/
structure Identifier where
  kind : ISBNKind
  digits : String
  deriving DecidableEq, Repr

/-- Modelled from the spec: a separator character tolerated inside an
ISBN-like run (hyphen, space or period). -/
def isSepChar (c : Char) : Bool :=
  c = '-' || c = ' ' || c = '.'

/-- Modelled from the spec: a character that can be part of an ISBN-like
run: a digit, the check character X/x, or a separator. -/
def isRunChar (c : Char) : Bool :=
  c.isDigit || c = 'X' || c = 'x' || isSepChar c

/-- Maximal runs of characters satisfying `p`, in order of appearance. -/
def runsAux (p : Char → Bool) : List Char → List Char → List (List Char)
  | [], acc => if acc.isEmpty then [] else [acc.reverse]
  | c :: cs, acc =>
      if p c then runsAux p cs (c :: acc)
      else if acc.isEmpty then runsAux p cs []
      else acc.reverse :: runsAux p cs []

/-- Maximal runs of characters satisfying `p` in a character list. -/
def runs (p : Char → Bool) (cs : List Char) : List (List Char) :=
  runsAux p cs []

/-- Modelled from the spec: strip the separators out of a matched run,
leaving the compact digit/check-character string. -/
def stripSeps (cs : List Char) : List Char :=
  cs.filter (fun c => !isSepChar c)

/-- Modelled from the spec: the candidate substrings of a text chunk:
each maximal ISBN-like run, with its separators stripped.  (The optional
literal "isbn" prefix of the loose pattern does not change which
digit runs occur, so it is not modelled.) -/
def candidates (text : String) : List (List Char) :=
  (runs isRunChar text.toList).map stripSeps

/-- Modelled from the spec: the numeric value of an ISBN-10 character,
with the check character X/x counting as 10. -/
def isbn10CharVal (c : Char) : Nat :=
  if c = 'X' || c = 'x' then 10 else c.toNat - 48

/-- Modelled from the spec: the ISBN-10 weighted sum with descending
weights starting at `w`. -/
def isbn10Sum : List Char → Nat → Nat
  | [], _ => 0
  | c :: cs, w => w * isbn10CharVal c + isbn10Sum cs (w - 1)

/-- Modelled from the spec: ISBN-10 validity: exactly 10 characters, the
first 9 digits, the last a digit or X/x, and the weighted sum
(weights 10 down to 1) divisible by 11. -/
def validISBN10 (cs : List Char) : Bool :=
  cs.length = 10 &&
  (cs.take 9).all Char.isDigit &&
  (match cs.getLast? with
   | some c => c.isDigit || c = 'X' || c = 'x'
   | none => false) &&
  isbn10Sum cs 10 % 11 = 0

/-- Modelled from the spec: the ISBN-13 weighted sum over digits with
alternating weights 1,3,1,3,…; `w1` is true when the next weight is 1. -/
def isbn13Sum : List Char → Bool → Nat
  | [], _ => 0
  | c :: cs, w1 => (if w1 then 1 else 3) * (c.toNat - 48) + isbn13Sum cs (!w1)

/-- Modelled from the spec: the ISBN-13 checksum condition: the check
digit `(10 - sum mod 10) mod 10` over the first 12 digits equals the
13th digit. -/
def isbn13ChecksumOk (cs : List Char) : Bool :=
  match cs.getLast? with
  | some c => (10 - isbn13Sum (cs.take 12) true % 10) % 10 = c.toNat - 48
  | none => false

/-- Modelled from the spec: ISBN-13 validity: exactly 13 digits, a
3-digit prefix belonging to the configured valid set, and a correct
checksum. -/
def validISBN13 (prefixes : List String) (cs : List Char) : Bool :=
  cs.length = 13 &&
  cs.all Char.isDigit &&
  prefixes.contains (String.mk (cs.take 3)) &&
  isbn13ChecksumOk cs

/-- Modelled from the spec: a well-formed prefix configuration is a
non-empty list of 3-character digit strings (spec section 6: "set of
valid ISBN-13 prefixes … as a set of 3-character strings"). -/
def wellFormedPrefixConfig (ps : List String) : Bool :=
  !ps.isEmpty && ps.all (fun p => p.length = 3 && p.toList.all Char.isDigit)

/-- Modelled from the spec: the prefixes the scanner actually uses:
a missing or malformed configuration degrades silently to the default
prefixes (spec section 7, MalformedConfig). -/
def effectivePrefixes (cfg : Option (List String)) : List String :=
  match cfg with
  | none => DEFAULT_ISBN13_PREFIXES
  | some ps => if wellFormedPrefixConfig ps then ps else DEFAULT_ISBN13_PREFIXES

/-- Modelled from the spec: the scanner state: the configured prefixes
plus the first valid ISBN-13 and the first valid ISBN-10 found so far. -/
structure BookScanner where
  valid_prefixes : List String
  found13 : Option Identifier
  found10 : Option Identifier
  deriving DecidableEq, Repr

/-- Modelled from the spec: a fresh scanner configured from the stored
preference value (`none` when the key is absent). -/
def BookScanner.new (cfg : Option (List String)) : BookScanner :=
  { valid_prefixes := effectivePrefixes cfg, found13 := none, found10 := none }

/-- Modelled from the spec: feed one candidate: on a valid ISBN-13 set
`found13` if unset, on a valid ISBN-10 set `found10` if unset
(first-match-wins per kind). -/
def feedCandidate (st : BookScanner) (cand : List Char) : BookScanner :=
  if validISBN13 st.valid_prefixes cand then
    { st with found13 := st.found13 <|> some ⟨ISBNKind.isbn13, String.mk cand⟩ }
  else if validISBN10 cand then
    { st with found10 := st.found10 <|> some ⟨ISBNKind.isbn10, String.mk cand⟩ }
  else st

/-- Modelled from the spec: scan one text chunk, updating the state with
every candidate in order of appearance. -/
def BookScanner.feedText (st : BookScanner) (text : String) : BookScanner :=
  (candidates text).foldl feedCandidate st

/-- Modelled from the spec: the method pdf.py calls once per extracted
range: feed each chunk of `texts` in order. -/
def BookScanner.look_for_identifiers_in_text (st : BookScanner)
    (texts : List String) : BookScanner :=
  texts.foldl BookScanner.feedText st

/-- Modelled from the spec: `has_identifier()` is true once any valid
ISBN-13 has been found. -/
def BookScanner.has_identifier (st : BookScanner) : Bool :=
  st.found13.isSome

/-- Modelled from the spec: `result()` / `get_isbn_result()`: the
ISBN-13 if present, else the ISBN-10 if present, else none. -/
def BookScanner.get_isbn_result (st : BookScanner) : Option Identifier :=
  st.found13 <|> st.found10

/-! ## pdf.py -/

/-- From pdf.py line 24: the front page window constant. -/
def FRONT_PAGES : Int := 25

/-- From pdf.py line 25: the back page window constant. -/
def BACK_PAGES : Int := 15

/-- The value of `errno.ENOENT`. -/
def ENOENT : Nat := 2

/-- Invert the digits of a character list (most significant first);
helper for `pyInt`. -/
def digitsToNat (cs : List Char) : Nat :=
  cs.foldl (fun acc c => acc * 10 + (c.toNat - 48)) 0

/-- Drop ASCII whitespace at both ends of a character list
(Python `str.strip()`). -/
def stripWs (cs : List Char) : List Char :=
  ((cs.dropWhile Char.isWhitespace).reverse.dropWhile Char.isWhitespace).reverse

/-- Python `int(s)` on a string: after stripping whitespace, an optional
sign followed by at least one digit; anything else raises `ValueError`. -/
def pyInt (s : List Char) : Except PyError Int :=
  match stripWs s with
  | '-' :: rest =>
      if !rest.isEmpty && rest.all Char.isDigit then Except.ok (-(digitsToNat rest : Int))
      else Except.error PyError.valueError
  | '+' :: rest =>
      if !rest.isEmpty && rest.all Char.isDigit then Except.ok (digitsToNat rest : Int)
      else Except.error PyError.valueError
  | cs =>
      if !cs.isEmpty && cs.all Char.isDigit then Except.ok (digitsToNat cs : Int)
      else Except.error PyError.valueError

/-- Split a character list at newline characters (Python
`str.splitlines()` restricted to `\n`, the separator pdfinfo emits). -/
def splitLines (cs : List Char) : List (List Char) :=
  match cs with
  | [] => []
  | c :: rest =>
      match splitLines rest with
      | [] => if c = '\n' then [[], []] else [[c]]
      | l :: ls => if c = '\n' then [] :: (l :: ls) else (c :: l) :: ls

/-- Python `line.partition(':')[::2]`: the text before the first colon
and the text after it, or `none` when the line has no colon
(pdf.py line 124 skips such lines). -/
def partitionColon (line : List Char) : Option (List Char × List Char) :=
  match line.span (fun c => c ≠ ':') with
  | (before, ':' :: after) => some (before, after)
  | _ => none

/-- From pdf.py lines 122-128: build the pdfinfo field dictionary: for
each line containing a colon, the field is the part before the first
colon and the value the stripped part after it; pairs with an empty
field or value are skipped.  Later lines overwrite earlier ones, which
`dictLookup` reproduces by keeping the last binding. -/
def parseInfoFields (raw : List Char) : List (List Char × List Char) :=
  (splitLines raw).foldr
    (fun line acc =>
      match partitionColon line with
      | some (field, val) =>
          let val := stripWs val
          if !field.isEmpty && !val.isEmpty then (field, val) :: acc else acc
      | none => acc) []

/-- Python dict semantics over the pair list of `parseInfoFields`:
the last binding of a key wins. -/
def dictLookup (key : List Char) (ps : List (List Char × List Char)) :
    Option (List Char) :=
  ps.foldl (fun acc p => if p.1 = key then some p.2 else acc) none

/-- From pdf.py lines 93-132 (`get_page_count`).  The interaction with
`subprocess` and the UTF-8 codec is summarised in the argument:
`Except.error rc` is `pdfinfo` exiting with nonzero return code `rc`
(`CalledProcessError`), `Except.ok none` is output that fails UTF-8
decoding, and `Except.ok (some raw)` is the decoded output text.  The
function logs and returns `None` on the two failure cases, parses the
field dictionary, and returns `int(ans['Pages'])` when a `Pages` field
is present — `int()` may raise `ValueError` — and `None` otherwise. -/
def get_page_count (input : Except Int (Option String)) :
    Except PyError (Option Int) :=
  match input with
  | Except.error _rc => Except.ok none
  | Except.ok none => Except.ok none
  | Except.ok (some raw) =>
      let ans := parseInfoFields raw.toList
      match dictLookup "Pages".toList ans with
      | some v => (pyInt v).map (fun n => some n)
      | none => Except.ok none

/-- The observable behaviour of one `pdftohtml` invocation, as consumed
by `call_pdftohtml`:
`popen` is `Except.error e` when `popen` raises `OSError` with errno `e`;
`wait` is the first non-`EINTR` outcome of the `p.wait()` retry loop
(`Except.error e` an `OSError` that is re-raised, `Except.ok ret` the
return code); `indexExists` and `indexSize` describe the produced
`index.xml`; `text` is the text content lxml extracts from it. -/
structure PdftohtmlEnv where
  popen : Except Nat Unit
  wait : Except Nat Int
  indexExists : Bool
  indexSize : Nat
  text : String

/-- From pdf.py lines 135-210 (`call_pdftohtml`): raise
`ConversionError` when `popen` fails with `ENOENT` (re-raise other
`OSError`s), re-raise a non-`EINTR` `OSError` from `wait`, raise
`ConversionError` on a nonzero return code, raise `DRMError` when
`index.xml` is missing or smaller than 100 bytes, and otherwise return
the extracted text. -/
def call_pdftohtml (env : PdftohtmlEnv) : Except PyError String :=
  match env.popen with
  | Except.error e =>
      if e = ENOENT then Except.error PyError.conversionError
      else Except.error (PyError.osError e)
  | Except.ok _ =>
      match env.wait with
      | Except.error e => Except.error (PyError.osError e)
      | Except.ok ret =>
          if ret ≠ 0 then Except.error PyError.conversionError
          else if !env.indexExists || env.indexSize < 100 then
            Except.error PyError.drmError
          else Except.ok env.text

/-- A page range passed to `call_pdftohtml`: either the whole document
(no `-f`/`-l` arguments) or an explicit `first`/`last` pair. -/
inductive ExtractReq where
  | whole
  | range (first last : Int)
  deriving DecidableEq, Repr

/-- The collaborators of one `get_isbn` run: the pdfinfo outcome fed to
`get_page_count`, the pdftohtml behaviour for each possible request, and
the stored prefix configuration the scanner is constructed from. -/
structure GetIsbnEnv where
  pcInput : Except Int (Option String)
  extract : ExtractReq → PdftohtmlEnv
  cfg : Option (List String)

/-- From pdf.py lines 65-91 (`get_isbn`), parametrised by the two window
constants it reads; alongside the outcome it records the list of
extraction requests issued, in order.  `scanner` is only assigned inside
the `if total_pages is not None:` block, so when the page count is
unavailable the final `return scanner.get_isbn_result()` raises
`UnboundLocalError`. -/
def get_isbn_core (front back : Int) (env : GetIsbnEnv) :
    List ExtractReq × Except PyError (Option Identifier) :=
  match get_page_count env.pcInput with
  | Except.error e => ([], Except.error e)
  | Except.ok none => ([], Except.error PyError.unboundLocalError)
  | Except.ok (some total_pages) =>
      let scanner := BookScanner.new env.cfg
      if total_pages ≤ front + back then
        match call_pdftohtml (env.extract ExtractReq.whole) with
        | Except.error e => ([ExtractReq.whole], Except.error e)
        | Except.ok text =>
            let scanner := scanner.look_for_identifiers_in_text [text]
            ([ExtractReq.whole], Except.ok scanner.get_isbn_result)
      else
        let frontReq := ExtractReq.range 1 front
        match call_pdftohtml (env.extract frontReq) with
        | Except.error e => ([frontReq], Except.error e)
        | Except.ok text =>
            let scanner := scanner.look_for_identifiers_in_text [text]
            if scanner.has_identifier then
              ([frontReq], Except.ok scanner.get_isbn_result)
            else
              let backReq := ExtractReq.range (total_pages - back) total_pages
              match call_pdftohtml (env.extract backReq) with
              | Except.error e => ([frontReq, backReq], Except.error e)
              | Except.ok text2 =>
                  let scanner := scanner.look_for_identifiers_in_text [text2]
                  ([frontReq, backReq], Except.ok scanner.get_isbn_result)

/-- `get_isbn` as pdf.py runs it: `get_isbn_core` at the module
constants `FRONT_PAGES` and `BACK_PAGES`. -/
def get_isbn_run (env : GetIsbnEnv) :
    List ExtractReq × Except PyError (Option Identifier) :=
  get_isbn_core FRONT_PAGES BACK_PAGES env

/-! ## Concrete environments used in the theorems -/

/-- A `pdftohtml` run that succeeds and extracts the text `t`. -/
def okExtract (t : String) : PdftohtmlEnv :=
  { popen := Except.ok (), wait := Except.ok 0,
    indexExists := true, indexSize := 200, text := t }

/-- A `pdftohtml` run whose process exits with return code 1. -/
def failExtract : PdftohtmlEnv :=
  { popen := Except.ok (), wait := Except.ok 1,
    indexExists := false, indexSize := 0, text := "" }

/-- A run of `get_isbn` where `pdfinfo` exits with return code 1, so the
page count is unavailable. -/
def envNoPageCount : GetIsbnEnv :=
  { pcInput := Except.error 1, extract := fun _ => okExtract "", cfg := none }

/-- A run of `get_isbn` on a 30-page document. -/
def env30 : GetIsbnEnv :=
  { pcInput := Except.ok (some "Pages: 30"),
    extract := fun _ => okExtract "", cfg := none }

/-- A run of `get_isbn` on a 200-page document whose front range
contains a valid ISBN-13. -/
def env200FrontIsbn : GetIsbnEnv :=
  { pcInput := Except.ok (some "Pages: 200"),
    extract := fun req =>
      if req = ExtractReq.range 1 25 then okExtract "ISBN 978-0-306-40615-7"
      else okExtract "",
    cfg := none }

/-- A run of `get_isbn` on a 200-page document where every `pdftohtml`
invocation fails with a nonzero return code. -/
def env200ExtractFail : GetIsbnEnv :=
  { pcInput := Except.ok (some "Pages: 200"),
    extract := fun _ => failExtract, cfg := none }

/-- The first checksum- and prefix-valid ISBN-13 among the candidates of
a list of text chunks (spec section 4.1: the value `found13` holds). -/
def firstValidISBN13 (ps : List String) (texts : List String) :
    Option (List Char) :=
  ((texts.map candidates).flatten).find? (validISBN13 ps)

/-- The first checksum-valid ISBN-10 among the candidates of a list of
text chunks (spec section 4.1: the value `found10` holds when no
candidate is a valid ISBN-13). -/
def firstValidISBN10 (texts : List String) : Option (List Char) :=
  ((texts.map candidates).flatten).find? validISBN10

/-! ## Scanner lemmas -/

theorem feedCandidate_valid_prefixes (st : BookScanner) (c : List Char) :
    (feedCandidate st c).valid_prefixes = st.valid_prefixes := by
  unfold feedCandidate
  by_cases h : validISBN13 st.valid_prefixes c
  · simp [h]
  · by_cases h10 : validISBN10 c <;> simp [h, h10]

theorem feedCandidate_found13 (st : BookScanner) (c : List Char) :
    (feedCandidate st c).found13 =
      if validISBN13 st.valid_prefixes c then
        st.found13 <|> some ⟨ISBNKind.isbn13, String.mk c⟩
      else st.found13 := by
  unfold feedCandidate
  by_cases h : validISBN13 st.valid_prefixes c
  · simp [h]
  · by_cases h10 : validISBN10 c <;> simp [h, h10]

theorem feedCandidate_found10 (st : BookScanner) (c : List Char) :
    (feedCandidate st c).found10 =
      if !validISBN13 st.valid_prefixes c && validISBN10 c then
        st.found10 <|> some ⟨ISBNKind.isbn10, String.mk c⟩
      else st.found10 := by
  unfold feedCandidate
  by_cases h : validISBN13 st.valid_prefixes c
  · simp [h]
  · by_cases h10 : validISBN10 c <;> simp [h, h10]

theorem foldl_feed_found13 (cs : List (List Char)) (st : BookScanner) :
    (cs.foldl feedCandidate st).found13 =
      (st.found13 <|> (cs.find? (validISBN13 st.valid_prefixes)).map
        (fun c => ⟨ISBNKind.isbn13, String.mk c⟩)) := by
  induction cs generalizing st with
  | nil => simp
  | cons c cs ih =>
    simp only [List.foldl_cons, List.find?_cons]
    rw [ih, feedCandidate_valid_prefixes, feedCandidate_found13]
    by_cases h : validISBN13 st.valid_prefixes c
    · simp only [h, if_pos]
      cases st.found13 <;> simp
    · simp [h]

theorem foldl_feed_found10 (cs : List (List Char)) (st : BookScanner) :
    (cs.foldl feedCandidate st).found10 =
      (st.found10 <|>
        (cs.find? (fun c => !validISBN13 st.valid_prefixes c && validISBN10 c)).map
          (fun c => ⟨ISBNKind.isbn10, String.mk c⟩)) := by
  induction cs generalizing st with
  | nil => simp
  | cons c cs ih =>
    simp only [List.foldl_cons, List.find?_cons]
    rw [ih, feedCandidate_valid_prefixes, feedCandidate_found10]
    by_cases h : !validISBN13 st.valid_prefixes c && validISBN10 c
    · simp only [h, if_pos]
      cases st.found10 <;> simp
    · simp [h]

theorem look_for_eq_foldl (st : BookScanner) (texts : List String) :
    st.look_for_identifiers_in_text texts =
      ((texts.map candidates).flatten).foldl feedCandidate st := by
  induction texts generalizing st with
  | nil => rfl
  | cons t ts ih =>
    calc st.look_for_identifiers_in_text (t :: ts)
        = (st.feedText t).look_for_identifiers_in_text ts := rfl
      _ = ((ts.map candidates).flatten).foldl feedCandidate (st.feedText t) := ih _
      _ = (((t :: ts).map candidates).flatten).foldl feedCandidate st := by
            rw [List.map_cons, List.flatten_cons, List.foldl_append]
            rfl

theorem find?_not_and_of_none {α : Type} {p q : α → Bool} {cs : List α}
    (h : cs.find? p = none) :
    cs.find? (fun c => !p c && q c) = cs.find? q := by
  induction cs with
  | nil => rfl
  | cons c cs ih =>
    rw [List.find?_cons] at h
    cases hp : p c with
    | true => simp [hp] at h
    | false =>
      simp only [hp] at h
      rw [List.find?_cons, List.find?_cons]
      simp [hp, ih h]

/-! ## Claim theorems -/

/-- C4: for every scan state reached by feeding text chunks to a fresh
scanner, `get_isbn_result` returns the first valid ISBN-13 candidate if
one exists, else the first valid ISBN-10 candidate, else none; a text
holding both a valid ISBN-10 and a valid ISBN-13 (in either order)
yields the ISBN-13, and a text with no ISBN-like substrings yields none
(the function is total, so no error is raised). -/
theorem result_priority :
    (∀ (cfg : Option (List String)) (texts : List String),
      ((BookScanner.new cfg).look_for_identifiers_in_text texts).get_isbn_result =
        match firstValidISBN13 (effectivePrefixes cfg) texts with
        | some c => some ⟨ISBNKind.isbn13, String.mk c⟩
        | none =>
            match firstValidISBN10 texts with
            | some c => some ⟨ISBNKind.isbn10, String.mk c⟩
            | none => none) ∧
    ((BookScanner.new none).look_for_identifiers_in_text
        ["ISBN 0-306-40615-2 and ISBN 978-0-306-40615-7"]).get_isbn_result =
      some ⟨ISBNKind.isbn13, "9780306406157"⟩ ∧
    ((BookScanner.new none).look_for_identifiers_in_text
        ["ISBN 978-0-306-40615-7 and ISBN 0-306-40615-2"]).get_isbn_result =
      some ⟨ISBNKind.isbn13, "9780306406157"⟩ ∧
    ((BookScanner.new none).look_for_identifiers_in_text
        ["hello world"]).get_isbn_result = none := by
  refine ⟨?_, by decide, by decide, by decide⟩
  intro cfg texts
  rw [look_for_eq_foldl]
  unfold BookScanner.get_isbn_result
  rw [foldl_feed_found13, foldl_feed_found10]
  simp only [BookScanner.new]
  cases h13 : ((texts.map candidates).flatten).find?
      (validISBN13 (effectivePrefixes cfg)) with
  | some c => simp [firstValidISBN13, h13]
  | none =>
    rw [find?_not_and_of_none h13]
    cases h10 : ((texts.map candidates).flatten).find? validISBN10 <;>
      simp [firstValidISBN13, firstValidISBN10, h13, h10]

/-- C6: a malformed prefix configuration degrades silently to the
default prefix set: the scanner constructed from it is the
default-configured scanner, so scanning any texts gives the same result,
and no error is raised (construction and scanning are total). -/
theorem malformed_config_degrades_to_defaults (ps : List String)
    (h : wellFormedPrefixConfig ps = false) :
    BookScanner.new (some ps) = BookScanner.new none ∧
    ∀ texts : List String,
      ((BookScanner.new (some ps)).look_for_identifiers_in_text texts).get_isbn_result
        = ((BookScanner.new none).look_for_identifiers_in_text texts).get_isbn_result := by
  have hnew : BookScanner.new (some ps) = BookScanner.new none := by
    simp [BookScanner.new, effectivePrefixes, h]
  exact ⟨hnew, fun texts => by rw [hnew]⟩

/-- Witness for C6 at the malformed configuration `["12"]`. -/
theorem malformed_config_degrades_to_defaults_witness :
    wellFormedPrefixConfig ["12"] = false ∧
    BookScanner.new (some ["12"]) = BookScanner.new none :=
  ⟨by decide, (malformed_config_degrades_to_defaults ["12"] (by decide)).1⟩

/-- C7: the default prefix set from config.py is exactly
`["977", "978", "979"]`, a 13-digit candidate whose 3-digit prefix is
not in the configured set is rejected whatever its checksum, and the
concrete candidate `1234567890128` is checksum-valid yet rejected under
the default set. -/
theorem default_prefixes_and_rejection :
    DEFAULT_ISBN13_PREFIXES = ["977", "978", "979"] ∧
    (∀ (ps : List String) (cs : List Char),
        ps.contains (String.mk (cs.take 3)) = false →
        validISBN13 ps cs = false) ∧
    isbn13ChecksumOk "1234567890128".toList = true ∧
    validISBN13 DEFAULT_ISBN13_PREFIXES "1234567890128".toList = false := by
  refine ⟨rfl, ?_, by decide, by decide⟩
  intro ps cs h
  simp at h
  simp [validISBN13]
  intro _ _ hmem
  exact absurd hmem h

/-- Witness for C7: the prefix-rejection component at the concrete set
`["900"]` and the concrete checksum-valid candidate. -/
theorem default_prefixes_and_rejection_witness :
    validISBN13 ["900"] "1234567890128".toList = false :=
  default_prefixes_and_rejection.2.1 ["900"] "1234567890128".toList (by decide)

/-- C8: the page windows are the module constants `FRONT_PAGES = 25`
and `BACK_PAGES = 15`, and `get_isbn` is the window-parametric core
applied to those constants. -/
theorem front_back_window_constants :
    FRONT_PAGES = 25 ∧ BACK_PAGES = 15 ∧
    ∀ env : GetIsbnEnv, get_isbn_run env = get_isbn_core FRONT_PAGES BACK_PAGES env :=
  ⟨rfl, rfl, fun _ => rfl⟩

/-- C2 (code bug): when the page count is unavailable, `get_isbn` issues
no extraction request, but instead of returning none it raises
`UnboundLocalError` at `return scanner.get_isbn_result()`, because
`scanner` is only assigned inside the `if total_pages is not None:`
block (pdf.py lines 72-73 versus line 86). -/
theorem get_isbn_missing_page_count_unbound_local :
    get_isbn_run envNoPageCount = ([], Except.error PyError.unboundLocalError) :=
  rfl

/-- C3: when the page count is at most `FRONT_PAGES + BACK_PAGES`,
`get_isbn` issues exactly one extraction request, for the whole
document (no page sub-range is requested). -/
theorem whole_document_single_extraction (env : GetIsbnEnv) (tp : Int)
    (hpc : get_page_count env.pcInput = Except.ok (some tp))
    (htp : tp ≤ FRONT_PAGES + BACK_PAGES) :
    (get_isbn_run env).1 = [ExtractReq.whole] := by
  unfold get_isbn_run get_isbn_core
  simp only [hpc]
  rw [if_pos htp]
  cases hcall : call_pdftohtml (env.extract ExtractReq.whole) <;> simp [hcall]

/-- Witness for C3 on a 30-page document. -/
theorem whole_document_single_extraction_witness :
    get_page_count env30.pcInput = Except.ok (some 30) ∧
    (30 : Int) ≤ FRONT_PAGES + BACK_PAGES ∧
    (get_isbn_run env30).1 = [ExtractReq.whole] :=
  ⟨by rfl, by decide, whole_document_single_extraction env30 30 (by rfl) (by decide)⟩

/-- C9: `call_pdftohtml` raises `ConversionError` when the executable is
missing (popen fails with `ENOENT`) or the process exits with a nonzero
return code, raises `DRMError` when the process exits successfully but
`index.xml` is missing or smaller than 100 bytes, and returns text only
when none of those conditions hold. -/
theorem call_pdftohtml_error_classification (env : PdftohtmlEnv) :
    (env.popen = Except.error ENOENT →
        call_pdftohtml env = Except.error PyError.conversionError) ∧
    (∀ ret : Int, env.popen = Except.ok () → env.wait = Except.ok ret → ret ≠ 0 →
        call_pdftohtml env = Except.error PyError.conversionError) ∧
    (env.popen = Except.ok () → env.wait = Except.ok 0 →
        (env.indexExists = false ∨ env.indexSize < 100) →
        call_pdftohtml env = Except.error PyError.drmError) ∧
    (∀ t : String, call_pdftohtml env = Except.ok t →
        env.popen = Except.ok () ∧ env.wait = Except.ok 0 ∧
        env.indexExists = true ∧ 100 ≤ env.indexSize ∧ t = env.text) := by
  obtain ⟨popen, wait, iex, isz, txt⟩ := env
  refine ⟨?_, ?_, ?_, ?_⟩
  · intro h
    subst h
    simp [call_pdftohtml]
  · intro ret hp hw hr
    subst hp
    subst hw
    simp [call_pdftohtml, hr]
  · intro hp hw hidx
    subst hp
    subst hw
    rcases hidx with h | h
    · have hex : iex = false := h
      subst hex
      simp [call_pdftohtml]
    · have hsz : isz < 100 := h
      simp [call_pdftohtml, hsz]
  · intro t h
    rcases popen with e | u
    · by_cases he : e = ENOENT <;> simp [call_pdftohtml, he] at h
    · cases u
      rcases wait with e | ret
      · simp [call_pdftohtml] at h
      · by_cases hr : ret = 0
        · subst hr
          by_cases hex : iex = true
          · by_cases hsz : isz < 100
            · simp [call_pdftohtml, hex, hsz] at h
            · simp only [call_pdftohtml, hex] at h
              rw [if_neg (by simp), if_neg (by simp [hsz])] at h
              cases h
              refine ⟨rfl, rfl, hex, ?_, rfl⟩
              show 100 ≤ isz
              omega
          · simp [call_pdftohtml, hex] at h
        · simp [call_pdftohtml, hr] at h

/-- Witness for C9: the missing-executable branch at a concrete
environment. -/
theorem call_pdftohtml_error_classification_witness :
    call_pdftohtml { popen := Except.error 2, wait := Except.ok 0,
                     indexExists := true, indexSize := 200, text := "t" }
      = Except.error PyError.conversionError :=
  (call_pdftohtml_error_classification _).1 (by rfl)

/-- C10 counterexample: a `Pages` field with the non-empty, non-numeric
value `x` makes `get_page_count` raise `ValueError` (from `int()`)
instead of returning. -/
theorem get_page_count_nonnumeric_raises :
    get_page_count (Except.ok (some "Pages: x")) = Except.error PyError.valueError :=
  rfl

/-- C10 (amended): `get_page_count` returns none on a nonzero pdfinfo
return code, on undecodable output, and on output without a `Pages`
field; when a `Pages` field with a non-empty value is present it returns
that value parsed as an integer if the parse succeeds, and raises
`ValueError` otherwise. -/
theorem get_page_count_outcomes :
    (∀ rc : Int, get_page_count (Except.error rc) = Except.ok none) ∧
    get_page_count (Except.ok none) = Except.ok none ∧
    (∀ raw : String,
        dictLookup "Pages".toList (parseInfoFields raw.toList) = none →
        get_page_count (Except.ok (some raw)) = Except.ok none) ∧
    (∀ (raw : String) (v : List Char) (n : Int),
        dictLookup "Pages".toList (parseInfoFields raw.toList) = some v →
        pyInt v = Except.ok n →
        get_page_count (Except.ok (some raw)) = Except.ok (some n)) ∧
    (∀ (raw : String) (v : List Char),
        dictLookup "Pages".toList (parseInfoFields raw.toList) = some v →
        pyInt v = Except.error PyError.valueError →
        get_page_count (Except.ok (some raw)) = Except.error PyError.valueError) := by
  refine ⟨fun rc => rfl, rfl, ?_, ?_, ?_⟩
  · intro raw h
    unfold get_page_count
    dsimp only
    rw [h]
  · intro raw v n h hv
    unfold get_page_count
    dsimp only
    rw [h]
    show Except.map _ (pyInt v) = _
    rw [hv]
    rfl
  · intro raw v h hv
    unfold get_page_count
    dsimp only
    rw [h]
    show Except.map _ (pyInt v) = _
    rw [hv]
    rfl

/-- Witness for C10 on pdfinfo output holding `Pages: 12`. -/
theorem get_page_count_outcomes_witness :
    get_page_count (Except.ok (some "Pages: 12")) = Except.ok (some 12) :=
  get_page_count_outcomes.2.2.2.1 "Pages: 12" "12".toList 12 (by rfl) (by rfl)

/-- C5 counterexample: on a 200-page document whose front-range
extraction fails with a nonzero pdftohtml return code, `get_isbn`
does not produce a (possibly none) scan result: the `ConversionError`
propagates out. -/
theorem extraction_failure_aborts_scan :
    (get_isbn_run env200ExtractFail).2 = Except.error PyError.conversionError :=
  rfl

/-- C5 (amended): when the Text Extractor fails for a requested range,
`get_isbn` neither retries nor interprets the failure: the error
propagates as-is to the caller, no further extraction request is issued,
and no scan result is produced; retry policy is left to the
orchestration layer. -/
theorem extraction_failure_propagates (env : GetIsbnEnv) (tp : Int) (e : PyError)
    (hpc : get_page_count env.pcInput = Except.ok (some tp)) :
    (tp ≤ FRONT_PAGES + BACK_PAGES →
        call_pdftohtml (env.extract ExtractReq.whole) = Except.error e →
        get_isbn_run env = ([ExtractReq.whole], Except.error e)) ∧
    (FRONT_PAGES + BACK_PAGES < tp →
        call_pdftohtml (env.extract (ExtractReq.range 1 FRONT_PAGES)) = Except.error e →
        get_isbn_run env = ([ExtractReq.range 1 FRONT_PAGES], Except.error e)) ∧
    (∀ t : String, FRONT_PAGES + BACK_PAGES < tp →
        call_pdftohtml (env.extract (ExtractReq.range 1 FRONT_PAGES)) = Except.ok t →
        ((BookScanner.new env.cfg).look_for_identifiers_in_text [t]).has_identifier = false →
        call_pdftohtml (env.extract (ExtractReq.range (tp - BACK_PAGES) tp)) = Except.error e →
        get_isbn_run env =
          ([ExtractReq.range 1 FRONT_PAGES, ExtractReq.range (tp - BACK_PAGES) tp],
           Except.error e)) := by
  refine ⟨?_, ?_, ?_⟩
  · intro htp hfail
    unfold get_isbn_run get_isbn_core
    simp only [hpc]
    rw [if_pos htp, hfail]
  · intro htp hfail
    unfold get_isbn_run get_isbn_core
    simp only [hpc]
    rw [if_neg (not_le.mpr htp), hfail]
  · intro t htp hok hid hfail
    unfold get_isbn_run get_isbn_core
    simp only [hpc]
    rw [if_neg (not_le.mpr htp), hok]
    simp only [hid, hfail]
    simp

/-- Witness for C5: the front-range-failure branch on
`env200ExtractFail`. -/
theorem extraction_failure_propagates_witness :
    get_isbn_run env200ExtractFail =
      ([ExtractReq.range 1 FRONT_PAGES], Except.error PyError.conversionError) :=
  (extraction_failure_propagates env200ExtractFail 200 PyError.conversionError
      (by rfl)).2.1 (by decide) (by rfl)

/-- C1: on a document with more than `FRONT_PAGES + BACK_PAGES` pages,
`get_isbn` first requests extraction of pages `[1, FRONT_PAGES]`, and
requests the back range `[total_pages - BACK_PAGES, total_pages]` if and
only if `has_identifier()` is false after scanning the front text — so
no back-range extraction is issued once a front-range identifier is
found. -/
theorem page_range_front_then_back (env : GetIsbnEnv) (tp : Int) (t : String)
    (hpc : get_page_count env.pcInput = Except.ok (some tp))
    (htp : FRONT_PAGES + BACK_PAGES < tp)
    (hfront : call_pdftohtml (env.extract (ExtractReq.range 1 FRONT_PAGES)) = Except.ok t) :
    (get_isbn_run env).1 =
      if ((BookScanner.new env.cfg).look_for_identifiers_in_text [t]).has_identifier then
        [ExtractReq.range 1 FRONT_PAGES]
      else
        [ExtractReq.range 1 FRONT_PAGES, ExtractReq.range (tp - BACK_PAGES) tp] := by
  unfold get_isbn_run get_isbn_core
  simp only [hpc]
  rw [if_neg (not_le.mpr htp), hfront]
  by_cases hid : ((BookScanner.new env.cfg).look_for_identifiers_in_text [t]).has_identifier
  · simp [hid]
  · simp only [Bool.not_eq_true] at hid
    cases hcall : call_pdftohtml (env.extract (ExtractReq.range (tp - BACK_PAGES) tp)) <;>
      simp [hid, hcall]

/-- Witness for C1: a 200-page document whose front range contains a
valid ISBN-13 gets exactly one extraction request, for pages 1-25. -/
theorem page_range_front_then_back_witness :
    (get_isbn_run env200FrontIsbn).1 = [ExtractReq.range 1 25] := by
  have h := page_range_front_then_back env200FrontIsbn 200 "ISBN 978-0-306-40615-7"
    (by rfl) (by decide) (by rfl)
  rw [h]
  rfl

end ExtractIsbn
